import Mathlib

/-!
# Verification of the patchwork local-service dispatcher (`src/main.py`)

This file is a shallow embedding of `src/main.py`, a polling dispatcher that
fetches pending patchflow runs from a Postgres store, launches an external
`patchwork` executable once per run, and writes back a terminal status and
the produced outputs artifact.

Modelling conventions:
* Python values flowing through the loosely typed run records are modelled by
  `PyVal` (strings, ints, dicts, None); a Python dict is an association list
  with unique keys, looked up by `PyDict.get?`.
* Side effects (log lines, SQL UPDATEs, child-process launches) are recorded
  in an explicit `Event` trace.  Each coroutine's own events are ordered; the
  event-loop interleaving across concurrent runs is not modelled, so a dispatch
  cycle returns the per-run traces as a list of lists.
* The external world (the child process outcome and the output artifact file)
  is an explicit `World` parameter.
* External library behaviour (`json.dumps`, Python `repr`, `strip_ansi`) is
  modelled by small executable functions; string-escape corner cases of the
  serializers are not modelled, as no property depends on them.
-/

namespace Patchwork

/-- A Python value as it appears in the run records of `main.py`:
strings, ints, dicts (JSON objects from psycopg2) and `None`. -/
inductive PyVal where
  | vStr : String → PyVal
  | vInt : Int → PyVal
  | vDict : List (String × PyVal) → PyVal
  | vNone : PyVal
  deriving Repr, Inhabited

mutual

/-- Decidable equality on `PyVal` (hand-written because of the nested list). -/
def PyVal.decEq : (a b : PyVal) → Decidable (a = b)
  | .vStr s, .vStr t =>
      if h : s = t then .isTrue (by rw [h]) else .isFalse (by simp [h])
  | .vInt m, .vInt n =>
      if h : m = n then .isTrue (by rw [h]) else .isFalse (by simp [h])
  | .vNone, .vNone => .isTrue rfl
  | .vDict d, .vDict e =>
      match PyVal.decEqEntries d e with
      | .isTrue h => .isTrue (by rw [h])
      | .isFalse h => .isFalse (by simp [h])
  | .vStr _, .vInt _ => .isFalse (fun h => PyVal.noConfusion h)
  | .vStr _, .vDict _ => .isFalse (fun h => PyVal.noConfusion h)
  | .vStr _, .vNone => .isFalse (fun h => PyVal.noConfusion h)
  | .vInt _, .vStr _ => .isFalse (fun h => PyVal.noConfusion h)
  | .vInt _, .vDict _ => .isFalse (fun h => PyVal.noConfusion h)
  | .vInt _, .vNone => .isFalse (fun h => PyVal.noConfusion h)
  | .vDict _, .vStr _ => .isFalse (fun h => PyVal.noConfusion h)
  | .vDict _, .vInt _ => .isFalse (fun h => PyVal.noConfusion h)
  | .vDict _, .vNone => .isFalse (fun h => PyVal.noConfusion h)
  | .vNone, .vStr _ => .isFalse (fun h => PyVal.noConfusion h)
  | .vNone, .vInt _ => .isFalse (fun h => PyVal.noConfusion h)
  | .vNone, .vDict _ => .isFalse (fun h => PyVal.noConfusion h)

/-- Decidable equality on dict entry lists. -/
def PyVal.decEqEntries : (d e : List (String × PyVal)) → Decidable (d = e)
  | [], [] => .isTrue rfl
  | [], _ :: _ => .isFalse (by simp)
  | _ :: _, [] => .isFalse (by simp)
  | (k, v) :: d, (l, w) :: e =>
      if hk : k = l then
        match PyVal.decEq v w with
        | .isTrue hv =>
          match PyVal.decEqEntries d e with
          | .isTrue ht => .isTrue (by rw [hk, hv, ht])
          | .isFalse ht => .isFalse (by simp [ht])
        | .isFalse hv => .isFalse (by simp [hv])
      else .isFalse (by simp [hk])

end

instance : DecidableEq PyVal := PyVal.decEq

/-- A Python dict with string keys, as an association list (first binding wins,
matching dict-lookup on a dict whose keys are unique). -/
abbrev PyDict := List (String × PyVal)

/-- Lookup `d[k]`: `none` models a `KeyError`. -/
def PyDict.get? : PyDict → String → Option PyVal
  | [], _ => none
  | (k', v) :: d, k => if k' = k then some v else PyDict.get? d k

/-- Python `k in d`. -/
def PyDict.hasKey (d : PyDict) (k : String) : Bool :=
  (PyDict.get? d k).isSome

/-- Python `d[k] = v`: replace the binding in place if the key exists, else
append (on a unique-key dict this is exactly Python-dict assignment). -/
def PyDict.set : PyDict → String → PyVal → PyDict
  | [], k, v => [(k, v)]
  | (k', v') :: d, k, v =>
      if k' = k then (k, v) :: d else (k', v') :: PyDict.set d k v

/-- Python `d.pop(k, default)`, the removal part. -/
def PyDict.remove : PyDict → String → PyDict
  | [], _ => []
  | (k', v) :: d, k =>
      if k' = k then PyDict.remove d k else (k', v) :: PyDict.remove d k

/-- Python `d.keys()` as a list. -/
def PyDict.keys (d : PyDict) : List String :=
  d.map (fun kv => kv.1)

mutual

/-- Python `repr` of a value (used by `str` on dicts).  String escaping inside
quotes is not modelled. -/
def pyReprV : PyVal → String
  | .vStr s => "\x27" ++ s ++ "\x27"
  | .vInt n => Int.repr n
  | .vNone => "None"
  | .vDict d => "\x7b" ++ pyReprEntries d ++ "\x7d"

/-- Python `repr` of a dict's entries, comma-separated. -/
def pyReprEntries : List (String × PyVal) → String
  | [] => ""
  | [(k, v)] => "\x27" ++ k ++ "\x27" ++ ": " ++ pyReprV v
  | (k, v) :: rest =>
      "\x27" ++ k ++ "\x27" ++ ": " ++ pyReprV v ++ ", " ++ pyReprEntries rest

end

/-- Python `str`, as used by f-string interpolation in `main.py`:
the string itself for strings, `repr` otherwise. -/
def pyStr : PyVal → String
  | .vStr s => s
  | v => pyReprV v

mutual

/-- Encoding `json.dumps` of a value (string escaping not modelled). -/
def jsonDumpsV : PyVal → String
  | .vStr s => "\"" ++ s ++ "\""
  | .vInt n => Int.repr n
  | .vNone => "null"
  | .vDict d => "\x7b" ++ jsonDumpsEntries d ++ "\x7d"

/-- Encoding `json.dumps` of a dict's entries, comma-separated. -/
def jsonDumpsEntries : List (String × PyVal) → String
  | [] => ""
  | [(k, v)] => "\"" ++ k ++ "\"" ++ ": " ++ jsonDumpsV v
  | (k, v) :: rest =>
      "\"" ++ k ++ "\"" ++ ": " ++ jsonDumpsV v ++ ", " ++ jsonDumpsEntries rest

end

/-- Line 73 of `main.py`: `json.dumps(run[key]) if isinstance(run[key], dict)
else run[key]` — dict-valued fields are serialized before being written. -/
def serializeField (v : PyVal) : PyVal :=
  match v with
  | .vDict d => .vStr (jsonDumpsV (.vDict d))
  | v => v

/-- State machine for the external `strip_ansi` dependency: `false` means
copying characters, `true` means skipping an ANSI escape sequence until its
terminating letter. -/
def stripAnsiAux : Bool → List Char → List Char
  | _, [] => []
  | false, c :: rest =>
      if c = '\x1b' then stripAnsiAux true rest else c :: stripAnsiAux false rest
  | true, c :: rest =>
      if c.isAlpha then stripAnsiAux false rest else stripAnsiAux true rest

/-- Models the external `strip_ansi` library: removes ANSI escape sequences. -/
def stripAnsi (s : String) : String :=
  (stripAnsiAux false s.data).asString

/-- The environment-derived module configuration of `main.py`
(`PATCHWORK_EXEC`, `OUTPUT_DIR`, `ORGANIZATION_ID`, `READ_ONLY`). -/
structure Config where
  patchwork_exec : String
  output_dir : String
  organization_id : String
  read_only : Bool
  deriving Repr, DecidableEq

/-- An observable side effect of the dispatcher.  `dbUpdate sets whereId`
is the `UPDATE custom_patchflow_runs SET … WHERE id = …` issued by
`save_run`; `spawnProc cmd` is the child-process launch; `logWouldUpdate`
is the single dry-run log line of `save_run` (carrying the query's field
names and parameter values, the run id included, as the f-string does). -/
inductive Event where
  | logInfo : String → Event
  | logError : String → Event
  | logWouldUpdate : (runId : PyVal) → (fields : List String) → (values : List PyVal) → Event
  | dbUpdate : (sets : List (String × PyVal)) → (whereId : PyVal) → Event
  | spawnProc : (cmd : List String) → Event
  deriving Repr, DecidableEq

/-- The update pairs built by the loop of `save_run` (lines 70–73): one
`column = value` pair per key of `only` that is present in the run and is not
`"patchflow"`, with dict values serialized by `json.dumps`. -/
def update_pairs (run : PyDict) (only : List String) : List (String × PyVal) :=
  (only.filter (fun k => PyDict.hasKey run k && k ≠ "patchflow")).map
    (fun k => (k, serializeField ((PyDict.get? run k).getD .vNone)))

/-- Function `save_run(run, only)` (lines 63–92): returns the event trace of one call.
If no field survives the filter it returns with no effect; in read-only
(dry-run) mode it emits one log line carrying the intended update; otherwise
it issues a single partial `UPDATE`.  A database error inside the write is
caught and logged by the function itself, so the call never raises. -/
def save_run (cfg : Config) (run : PyDict) (only : Option (List String)) : List Event :=
  let onlyKeys := only.getD (PyDict.keys run)
  let ups := update_pairs run onlyKeys
  if ups.isEmpty then []
  else
    let rid := (PyDict.get? run "id").getD .vNone
    if cfg.read_only then
      [.logWouldUpdate rid (ups.map (fun kv => kv.1 ++ " = %s"))
        (ups.map (fun kv => kv.2) ++ [rid])]
    else
      [.dbUpdate ups rid]

/-- The run-specific output path (line 117):
`os.path.join(output_dir, f"{now}_run_{id}.json")` with `now` the
`%Y-%m-%dT%H-%M-%S`-formatted current time. -/
def output_path (cfg : Config) (now : String) (rid : PyVal) : String :=
  cfg.output_dir ++ "/" ++ now ++ "_run_" ++ pyStr rid ++ ".json"

/-- Command construction (lines 120–131).  `.error` models the Python
exception raised while building or joining the command: a missing or
non-dict `inputs`, a missing `patchflow`/`graph`, a missing `graph["name"]`
(`KeyError`), or a non-string name (`TypeError` at `' '.join(cmd)`). -/
def buildCmd (cfg : Config) (run : PyDict) (outPath : String) :
    Except String (List String) :=
  match PyDict.get? run "inputs" with
  | some (.vDict inp) =>
    match PyDict.get? run "patchflow" with
    | some (.vDict pf) =>
      match PyDict.get? pf "graph" with
      | some (.vDict g) =>
        match PyDict.get? g "name" with
        | some (.vStr name) =>
            .ok ([cfg.patchwork_exec, name, "--log", "debug", "--output", outPath,
                  "--disable_telemetry", "--plain"] ++
                 inp.map (fun kv => kv.1 ++ "=" ++ pyStr kv.2))
        | _ => .error "graph name missing or not a string"
      | _ => .error "graph missing or not a dict"
    | _ => .error "patchflow missing or not a dict"
  | _ => .error "inputs missing or not a dict"

/-- Outcome of the child process as seen by `run_patchflow`:
`launchError` is an exception at `await promise` (e.g. missing executable,
the process never starts), `captureError` an exception while capturing or
decoding stdout/stderr after a successful launch, and `completed` a normal
exit with its return code and decoded streams. -/
inductive SpawnOutcome where
  | launchError : String → SpawnOutcome
  | captureError : String → SpawnOutcome
  | completed : (returncode : Int) → (stdout : String) → (stderr : String) → SpawnOutcome
  deriving Repr, DecidableEq

/-- The external world one `run_patchflow` call interacts with: the current
timestamp string, the child-process outcome, and the content of the output
artifact file after the process has finished (`some v` if the file exists and
parses as JSON `v`, `none` if it is absent or unparseable). -/
structure World where
  now : String
  spawn : SpawnOutcome
  outputFile : Option PyVal
  deriving Repr, DecidableEq

/-- Function `run_patchflow(run)` (lines 114–167): returns the final in-memory run
record and the ordered event trace of this coroutine.  The structure mirrors
the source exactly:
* the output path is computed from the timestamp and the run id (line 117);
* an exception while building the command (lines 120–131) jumps to the outer
  `except` (lines 163–167): log, set `status = failed`, persist, return —
  without ever writing `running`;
* otherwise `status = running` is persisted (lines 138–139) *before* the
  subprocess coroutine is awaited, so a launch failure (`await promise`) or a
  capture failure lands in the outer `except` with `running` already written;
* a normal exit maps a non-zero return code to `failed` and a zero one to
  `pr_created` (lines 147–154), then the output artifact is read back: if it
  parses, `outputs` is set and persisted, else only an info line is logged
  (lines 156–161). -/
def run_patchflow (cfg : Config) (w : World) (run : PyDict) : PyDict × List Event :=
  let rid := (PyDict.get? run "id").getD .vNone
  let outPath := output_path cfg w.now rid
  let ev0 : List Event := [.logInfo ("Running patchflow for run " ++ pyStr rid)]
  match buildCmd cfg run outPath with
  | .error msg =>
      let run1 := PyDict.set run "status" (.vStr "failed")
      (run1, ev0 ++ [.logError ("Error running patchflow for run " ++ pyStr rid ++ ": " ++ msg)]
                 ++ save_run cfg run1 (some ["status"]))
  | .ok cmd =>
    let ev1 := ev0 ++ [.logInfo ("Running command: " ++ String.intercalate " " cmd)]
    let run1 := PyDict.set run "status" (.vStr "running")
    let ev2 := ev1 ++ save_run cfg run1 (some ["status"])
    match w.spawn with
    | .launchError msg =>
        let run2 := PyDict.set run1 "status" (.vStr "failed")
        (run2, ev2 ++ [.logError ("Error running patchflow for run " ++ pyStr rid ++ ": " ++ msg)]
                   ++ save_run cfg run2 (some ["status"]))
    | .captureError msg =>
        let run2 := PyDict.set run1 "status" (.vStr "failed")
        (run2, ev2 ++ [.spawnProc cmd,
                       .logError ("Error running patchflow for run " ++ pyStr rid ++ ": " ++ msg)]
                   ++ save_run cfg run2 (some ["status"]))
    | .completed rc out err =>
        let ev3 := ev2 ++ [.spawnProc cmd,
          .logInfo "--- stdout ---", .logInfo (stripAnsi out),
          .logInfo "--- stderr ---", .logError (stripAnsi err), .logInfo "--- end ---"]
        let step :=
          if rc ≠ 0 then
            let r := PyDict.set run1 "status" (.vStr "failed")
            (r, ev3 ++ [.logError ("Error running patchflow for run " ++ pyStr rid)]
                    ++ save_run cfg r (some ["status"]))
          else
            let r := PyDict.set run1 "status" (.vStr "pr_created")
            (r, ev3 ++ [.logInfo ("Successfully ran patchflow for run " ++ pyStr rid)]
                    ++ save_run cfg r (some ["status"]))
        match w.outputFile with
        | some v =>
            let run3 := PyDict.set step.1 "outputs" v
            (run3, step.2 ++ save_run cfg run3 (some ["outputs"]))
        | none =>
            (step.1, step.2 ++ [.logInfo ("No outputs found for run " ++ pyStr rid)])

/-- Row post-processing of `check_and_run_pending` (lines 194–204): pop the
joined `p_name`/`p_graph` columns (defaults `None` and `{}`) and attach them
as the nested `patchflow` object. -/
def rowToRun (row : PyDict) : PyDict :=
  let pname := (PyDict.get? row "p_name").getD .vNone
  let pgraph := (PyDict.get? row "p_graph").getD (.vDict [])
  let rest := PyDict.remove (PyDict.remove row "p_name") "p_graph"
  PyDict.set rest "patchflow" (.vDict [("name", pname), ("graph", pgraph)])

/-- The external world one dispatch cycle interacts with: the result of the
pending-runs query (`.error` models a connection/query exception) and one
`World` per fetched row, in fetch order. -/
structure CycleWorld where
  fetch : Except String (List PyDict)
  worlds : List World

/-- Result of one dispatch cycle: the cycle-level log events, and one
`(final run, event trace)` pair per dispatched run.  The per-run traces are
kept separate because `asyncio.gather` interleaves the coroutines: any real
execution is an interleaving that preserves each per-run order. -/
structure CycleResult where
  events : List Event
  runResults : List (PyDict × List Event)

/-- Function `check_and_run_pending()` (lines 170–218): fetch up to 10 pending runs;
a fetch error is caught and logged (line 218); an empty result is logged and
the cycle ends (lines 189–191); otherwise each row becomes a run, a task is
created per run, and all tasks are awaited. -/
def check_and_run_pending (cfg : Config) (cw : CycleWorld) : CycleResult :=
  match cw.fetch with
  | .error msg => ⟨[.logError ("Error checking pending runs: " ++ msg)], []⟩
  | .ok data =>
    if data.length = 0 then ⟨[.logInfo "No pending runs found"], []⟩
    else
      let runs := data.map rowToRun
      let triggers := runs.flatMap (fun r =>
        [Event.logInfo ("Triggering patchflow for run " ++ pyStr ((PyDict.get? r "id").getD .vNone)),
         Event.logInfo ("Successfully triggered patchflow for run " ++ pyStr ((PyDict.get? r "id").getD .vNone))])
      ⟨triggers, (runs.zip cw.worlds).map (fun p => run_patchflow cfg p.2 p.1)⟩

/-- Is this event a store mutation (an `UPDATE` actually issued)? -/
def isDbWrite : Event → Bool
  | .dbUpdate _ _ => true
  | _ => false

/-- Is this event a child-process launch? -/
def isSpawn : Event → Bool
  | .spawnProc _ => true
  | _ => false

/-- Is this event a dry-run log line? -/
def isWouldUpdate : Event → Bool
  | .logWouldUpdate _ _ _ => true
  | _ => false

/-- The successive values written to the `status` column by the store
mutations of a trace, in order. -/
def statusWrites (evs : List Event) : List PyVal :=
  evs.filterMap (fun e =>
    match e with
    | .dbUpdate sets _ => (sets.find? (fun kv => kv.1 = "status")).map (fun kv => kv.2)
    | _ => none)

/-- The successive values written to the `outputs` column by the store
mutations of a trace, in order. -/
def outputsWrites (evs : List Event) : List PyVal :=
  evs.filterMap (fun e =>
    match e with
    | .dbUpdate sets _ => (sets.find? (fun kv => kv.1 = "outputs")).map (fun kv => kv.2)
    | _ => none)

/-- All store mutations of a trace, in order. -/
def dbWrites (evs : List Event) : List Event :=
  evs.filter isDbWrite

/-- All events of a dispatch cycle (cycle-level ones and every per-run
trace). -/
def allEvents (cr : CycleResult) : List Event :=
  cr.events ++ cr.runResults.flatMap (fun p => p.2)

/-- Effect of the partial `UPDATE ... SET c1 = v1, ... WHERE id = ...` on the
stored row: each listed column is overwritten, every other column keeps its
value. -/
def applyUpdate (record : PyDict) (sets : List (String × PyVal)) : PyDict :=
  sets.foldl (fun r kv => PyDict.set r kv.1 kv.2) record

/-- A sample configuration in normal (writing) mode. -/
def cfgA : Config := ⟨"/usr/local/bin/patchwork", "/tmp/outputs", "42", false⟩

/-- The sample configuration with the dry-run (`READ_ONLY`) toggle enabled. -/
def cfgR : Config := ⟨"/usr/local/bin/patchwork", "/tmp/outputs", "42", true⟩

/-- A well-formed fetched row (after the join): run 7 of flow `flow-a`. -/
def rowA : PyDict :=
  [("id", .vInt 7), ("inputs", .vDict [("k", .vStr "v"), ("n", .vInt 2)]),
   ("outputs", .vDict []), ("status", .vStr "pending"),
   ("organization_id", .vInt 42), ("meta", .vDict [("is_private", .vStr "true")]),
   ("p_name", .vStr "flow-a"),
   ("p_graph", .vDict [("name", .vStr "flow-a"), ("steps", .vDict [])])]

/-- A second well-formed row: run 8 of flow `flow-b`. -/
def rowB : PyDict :=
  [("id", .vInt 8), ("inputs", .vDict []),
   ("outputs", .vDict []), ("status", .vStr "pending"),
   ("organization_id", .vInt 42), ("meta", .vDict [("is_private", .vStr "true")]),
   ("p_name", .vStr "flow-b"),
   ("p_graph", .vDict [("name", .vStr "flow-b")])]

/-- A row whose joined flow has an empty `graph` (as a `LEFT JOIN` miss or an
empty jsonb column produces): `graph["name"]` raises before the process is
ever started. -/
def rowBad : PyDict :=
  [("id", .vInt 9), ("inputs", .vDict []),
   ("outputs", .vDict []), ("status", .vStr "pending"),
   ("organization_id", .vInt 42), ("meta", .vDict [("is_private", .vStr "true")]),
   ("p_name", .vStr "flow-c"), ("p_graph", .vDict [])]

/-- The sample runs, as `check_and_run_pending` builds them from the rows. -/
def runA : PyDict := rowToRun rowA

/-- The run built from `rowB`. -/
def runB : PyDict := rowToRun rowB

/-- The run built from the degenerate row `rowBad`. -/
def runBad : PyDict := rowToRun rowBad

/-- A world where the process succeeds and writes a parseable artifact. -/
def wOk : World :=
  ⟨"2026-10-12T09-00-00", .completed 0 "all good" "",
   some (.vDict [("result", .vStr "ok")])⟩

/-- A world where the process exits 1 yet writes a parseable artifact. -/
def wFail : World :=
  ⟨"2026-10-12T09-00-01", .completed 1 "" "boom",
   some (.vDict [("error", .vStr "bad")])⟩

/-- A world where the launch itself raises (missing executable), though an
artifact file would have been parseable. -/
def wLaunch : World :=
  ⟨"2026-10-12T09-00-02", .launchError "No such file or directory",
   some (.vDict [("result", .vStr "ok")])⟩

/-- A world where the process exits 0 but no artifact is found. -/
def wNoArtifact : World :=
  ⟨"2026-10-12T09-00-03", .completed 0 "" "", none⟩

/-! ## Dictionary lemmas -/

theorem PyDict.get?_set_self (d : PyDict) (k : String) (v : PyVal) :
    PyDict.get? (PyDict.set d k v) k = some v := by
  induction d with
  | nil => simp [PyDict.set, PyDict.get?]
  | cons kv d ih =>
    by_cases h : kv.1 = k
    · simp [PyDict.set, PyDict.get?, h]
    · simpa [PyDict.set, PyDict.get?, h] using ih

theorem PyDict.get?_set_ne (d : PyDict) (k k' : String) (v : PyVal) (h : k' ≠ k) :
    PyDict.get? (PyDict.set d k v) k' = PyDict.get? d k' := by
  induction d with
  | nil => simp [PyDict.set, PyDict.get?, Ne.symm h]
  | cons kv d ih =>
    by_cases hk : kv.1 = k
    · simp [PyDict.set, PyDict.get?, hk, h, Ne.symm h]
    · by_cases hk' : kv.1 = k'
      · simp [PyDict.set, PyDict.get?, hk, hk', h]
      · simpa [PyDict.set, PyDict.get?, hk, hk'] using ih

theorem PyDict.hasKey_set_self (d : PyDict) (k : String) (v : PyVal) :
    PyDict.hasKey (PyDict.set d k v) k = true := by
  simp [PyDict.hasKey, PyDict.get?_set_self]

theorem PyDict.hasKey_of_get? {d : PyDict} {k : String} {v : PyVal}
    (h : PyDict.get? d k = some v) : PyDict.hasKey d k = true := by
  simp [PyDict.hasKey, h]

/-- Calling `save_run` on a single present, non-`patchflow` field, in normal mode:
exactly one partial `UPDATE` carrying that field's (serialized) value. -/
theorem save_run_present (cfg : Config) (run : PyDict) (k : String) (v : PyVal)
    (hro : cfg.read_only = false) (hk : k ≠ "patchflow")
    (hv : PyDict.get? run k = some v) :
    save_run cfg run (some [k]) =
      [.dbUpdate [(k, serializeField v)] ((PyDict.get? run "id").getD .vNone)] := by
  simp [save_run, update_pairs, PyDict.hasKey, hv, hk, hro]

/-- Calling `save_run` on a single present, non-`patchflow` field, in dry-run mode:
no store mutation, exactly one log line carrying the intended update. -/
theorem save_run_present_ro (cfg : Config) (run : PyDict) (k : String) (v : PyVal)
    (hro : cfg.read_only = true) (hk : k ≠ "patchflow")
    (hv : PyDict.get? run k = some v) :
    save_run cfg run (some [k]) =
      [.logWouldUpdate ((PyDict.get? run "id").getD .vNone) [k ++ " = %s"]
        [serializeField v, (PyDict.get? run "id").getD .vNone]] := by
  simp [save_run, update_pairs, PyDict.hasKey, hv, hk, hro]

/-! ## `run_patchflow` path characterizations (normal mode) -/

/-- Path: an exception while building the invocation command (lines 120–131)
jumps straight to the outer `except` — the only status ever persisted is
`failed`; `running` is skipped. -/
theorem run_patchflow_buildErr (cfg : Config) (w : World) (run : PyDict) (msg : String)
    (hro : cfg.read_only = false)
    (he : buildCmd cfg run (output_path cfg w.now ((PyDict.get? run "id").getD .vNone)) =
      .error msg) :
    run_patchflow cfg w run =
      (PyDict.set run "status" (.vStr "failed"),
       [.logInfo ("Running patchflow for run " ++ pyStr ((PyDict.get? run "id").getD .vNone)),
        .logError ("Error running patchflow for run " ++
          pyStr ((PyDict.get? run "id").getD .vNone) ++ ": " ++ msg),
        .dbUpdate [("status", .vStr "failed")] ((PyDict.get? run "id").getD .vNone)]) := by
  have hs : PyDict.get? (PyDict.set run "status" (.vStr "failed")) "status" =
      some (.vStr "failed") := PyDict.get?_set_self ..
  have hid : PyDict.get? (PyDict.set run "status" (.vStr "failed")) "id" =
      PyDict.get? run "id" := PyDict.get?_set_ne _ _ _ _ (by decide)
  simp [run_patchflow, he,
    save_run_present _ _ _ _ hro (by decide) hs, serializeField, hid]

/-- Path: the command builds, the launch itself raises (`await promise`,
e.g. missing executable).  `running` was already persisted; the outer
`except` persists `failed`. -/
theorem run_patchflow_launchErr (cfg : Config) (w : World) (run : PyDict)
    (cmd : List String) (msg : String)
    (hro : cfg.read_only = false)
    (hok : buildCmd cfg run (output_path cfg w.now ((PyDict.get? run "id").getD .vNone)) =
      .ok cmd)
    (hsp : w.spawn = .launchError msg) :
    run_patchflow cfg w run =
      (PyDict.set (PyDict.set run "status" (.vStr "running")) "status" (.vStr "failed"),
       [.logInfo ("Running patchflow for run " ++ pyStr ((PyDict.get? run "id").getD .vNone)),
        .logInfo ("Running command: " ++ String.intercalate " " cmd),
        .dbUpdate [("status", .vStr "running")] ((PyDict.get? run "id").getD .vNone),
        .logError ("Error running patchflow for run " ++
          pyStr ((PyDict.get? run "id").getD .vNone) ++ ": " ++ msg),
        .dbUpdate [("status", .vStr "failed")] ((PyDict.get? run "id").getD .vNone)]) := by
  have h1 : PyDict.get? (PyDict.set run "status" (.vStr "running")) "status" =
      some (.vStr "running") := PyDict.get?_set_self ..
  have h2 : PyDict.get?
      (PyDict.set (PyDict.set run "status" (.vStr "running")) "status" (.vStr "failed"))
      "status" = some (.vStr "failed") := PyDict.get?_set_self ..
  have hid1 : PyDict.get? (PyDict.set run "status" (.vStr "running")) "id" =
      PyDict.get? run "id" := PyDict.get?_set_ne _ _ _ _ (by decide)
  have hid2 : PyDict.get?
      (PyDict.set (PyDict.set run "status" (.vStr "running")) "status" (.vStr "failed"))
      "id" = PyDict.get? run "id" :=
    (PyDict.get?_set_ne _ _ _ _ (by decide)).trans hid1
  simp [run_patchflow, hok, hsp,
    save_run_present _ _ _ _ hro (by decide) h1,
    save_run_present _ _ _ _ hro (by decide) h2, serializeField, hid1, hid2]

/-- Path: the command builds, the process launches, but capturing or decoding
its output raises.  As in the launch-error path, `running` was persisted and
the outer `except` persists `failed`; the process launch did happen. -/
theorem run_patchflow_captureErr (cfg : Config) (w : World) (run : PyDict)
    (cmd : List String) (msg : String)
    (hro : cfg.read_only = false)
    (hok : buildCmd cfg run (output_path cfg w.now ((PyDict.get? run "id").getD .vNone)) =
      .ok cmd)
    (hsp : w.spawn = .captureError msg) :
    run_patchflow cfg w run =
      (PyDict.set (PyDict.set run "status" (.vStr "running")) "status" (.vStr "failed"),
       [.logInfo ("Running patchflow for run " ++ pyStr ((PyDict.get? run "id").getD .vNone)),
        .logInfo ("Running command: " ++ String.intercalate " " cmd),
        .dbUpdate [("status", .vStr "running")] ((PyDict.get? run "id").getD .vNone),
        .spawnProc cmd,
        .logError ("Error running patchflow for run " ++
          pyStr ((PyDict.get? run "id").getD .vNone) ++ ": " ++ msg),
        .dbUpdate [("status", .vStr "failed")] ((PyDict.get? run "id").getD .vNone)]) := by
  have h1 : PyDict.get? (PyDict.set run "status" (.vStr "running")) "status" =
      some (.vStr "running") := PyDict.get?_set_self ..
  have h2 : PyDict.get?
      (PyDict.set (PyDict.set run "status" (.vStr "running")) "status" (.vStr "failed"))
      "status" = some (.vStr "failed") := PyDict.get?_set_self ..
  have hid1 : PyDict.get? (PyDict.set run "status" (.vStr "running")) "id" =
      PyDict.get? run "id" := PyDict.get?_set_ne _ _ _ _ (by decide)
  have hid2 : PyDict.get?
      (PyDict.set (PyDict.set run "status" (.vStr "running")) "status" (.vStr "failed"))
      "id" = PyDict.get? run "id" :=
    (PyDict.get?_set_ne _ _ _ _ (by decide)).trans hid1
  simp [run_patchflow, hok, hsp,
    save_run_present _ _ _ _ hro (by decide) h1,
    save_run_present _ _ _ _ hro (by decide) h2, serializeField, hid1, hid2]

/-- Path: normal exit, with terminal status decided by the return code, and
the output artifact present and parseable: the terminal status is persisted
first, then `outputs` is set and persisted as a second separate update. -/
theorem run_patchflow_completed_some (cfg : Config) (w : World) (run : PyDict)
    (cmd : List String) (rc : Int) (out err : String) (v : PyVal)
    (hro : cfg.read_only = false)
    (hok : buildCmd cfg run (output_path cfg w.now ((PyDict.get? run "id").getD .vNone)) =
      .ok cmd)
    (hsp : w.spawn = .completed rc out err)
    (ho : w.outputFile = some v) :
    run_patchflow cfg w run =
      (let tstat : String := if rc ≠ 0 then "failed" else "pr_created"
       let tlog : Event := if rc ≠ 0 then
          .logError ("Error running patchflow for run " ++
            pyStr ((PyDict.get? run "id").getD .vNone))
        else
          .logInfo ("Successfully ran patchflow for run " ++
            pyStr ((PyDict.get? run "id").getD .vNone))
       (PyDict.set (PyDict.set (PyDict.set run "status" (.vStr "running"))
          "status" (.vStr tstat)) "outputs" v,
        [.logInfo ("Running patchflow for run " ++ pyStr ((PyDict.get? run "id").getD .vNone)),
         .logInfo ("Running command: " ++ String.intercalate " " cmd),
         .dbUpdate [("status", .vStr "running")] ((PyDict.get? run "id").getD .vNone),
         .spawnProc cmd,
         .logInfo "--- stdout ---", .logInfo (stripAnsi out),
         .logInfo "--- stderr ---", .logError (stripAnsi err), .logInfo "--- end ---",
         tlog,
         .dbUpdate [("status", .vStr tstat)] ((PyDict.get? run "id").getD .vNone),
         .dbUpdate [("outputs", serializeField v)] ((PyDict.get? run "id").getD .vNone)])) := by
  have h1 : PyDict.get? (PyDict.set run "status" (.vStr "running")) "status" =
      some (.vStr "running") := PyDict.get?_set_self ..
  have hid1 : PyDict.get? (PyDict.set run "status" (.vStr "running")) "id" =
      PyDict.get? run "id" := PyDict.get?_set_ne _ _ _ _ (by decide)
  by_cases hrc : rc = 0
  · have h2 : PyDict.get?
        (PyDict.set (PyDict.set run "status" (.vStr "running")) "status" (.vStr "pr_created"))
        "status" = some (.vStr "pr_created") := PyDict.get?_set_self ..
    have hid2 : PyDict.get?
        (PyDict.set (PyDict.set run "status" (.vStr "running")) "status" (.vStr "pr_created"))
        "id" = PyDict.get? run "id" :=
      (PyDict.get?_set_ne _ _ _ _ (by decide)).trans hid1
    have h3 : PyDict.get?
        (PyDict.set (PyDict.set (PyDict.set run "status" (.vStr "running"))
          "status" (.vStr "pr_created")) "outputs" v) "outputs" = some v :=
      PyDict.get?_set_self ..
    have hid3 : PyDict.get?
        (PyDict.set (PyDict.set (PyDict.set run "status" (.vStr "running"))
          "status" (.vStr "pr_created")) "outputs" v) "id" = PyDict.get? run "id" :=
      (PyDict.get?_set_ne _ _ _ _ (by decide)).trans hid2
    simp [run_patchflow, hok, hsp, ho, hrc,
      save_run_present _ _ _ _ hro (by decide) h1,
      save_run_present _ _ _ _ hro (by decide) h2,
      save_run_present _ _ _ _ hro (by decide) h3, serializeField, hid1, hid2, hid3]
  · have h2 : PyDict.get?
        (PyDict.set (PyDict.set run "status" (.vStr "running")) "status" (.vStr "failed"))
        "status" = some (.vStr "failed") := PyDict.get?_set_self ..
    have hid2 : PyDict.get?
        (PyDict.set (PyDict.set run "status" (.vStr "running")) "status" (.vStr "failed"))
        "id" = PyDict.get? run "id" :=
      (PyDict.get?_set_ne _ _ _ _ (by decide)).trans hid1
    have h3 : PyDict.get?
        (PyDict.set (PyDict.set (PyDict.set run "status" (.vStr "running"))
          "status" (.vStr "failed")) "outputs" v) "outputs" = some v :=
      PyDict.get?_set_self ..
    have hid3 : PyDict.get?
        (PyDict.set (PyDict.set (PyDict.set run "status" (.vStr "running"))
          "status" (.vStr "failed")) "outputs" v) "id" = PyDict.get? run "id" :=
      (PyDict.get?_set_ne _ _ _ _ (by decide)).trans hid2
    simp [run_patchflow, hok, hsp, ho, hrc,
      save_run_present _ _ _ _ hro (by decide) h1,
      save_run_present _ _ _ _ hro (by decide) h2,
      save_run_present _ _ _ _ hro (by decide) h3, serializeField, hid1, hid2, hid3]

/-- Path: normal exit, terminal status decided by the return code, but the
output artifact is absent or unparseable: only an informational line is
logged, `outputs` and the recorded terminal status stay as they are. -/
theorem run_patchflow_completed_none (cfg : Config) (w : World) (run : PyDict)
    (cmd : List String) (rc : Int) (out err : String)
    (hro : cfg.read_only = false)
    (hok : buildCmd cfg run (output_path cfg w.now ((PyDict.get? run "id").getD .vNone)) =
      .ok cmd)
    (hsp : w.spawn = .completed rc out err)
    (ho : w.outputFile = none) :
    run_patchflow cfg w run =
      (let tstat : String := if rc ≠ 0 then "failed" else "pr_created"
       let tlog : Event := if rc ≠ 0 then
          .logError ("Error running patchflow for run " ++
            pyStr ((PyDict.get? run "id").getD .vNone))
        else
          .logInfo ("Successfully ran patchflow for run " ++
            pyStr ((PyDict.get? run "id").getD .vNone))
       (PyDict.set (PyDict.set run "status" (.vStr "running")) "status" (.vStr tstat),
        [.logInfo ("Running patchflow for run " ++ pyStr ((PyDict.get? run "id").getD .vNone)),
         .logInfo ("Running command: " ++ String.intercalate " " cmd),
         .dbUpdate [("status", .vStr "running")] ((PyDict.get? run "id").getD .vNone),
         .spawnProc cmd,
         .logInfo "--- stdout ---", .logInfo (stripAnsi out),
         .logInfo "--- stderr ---", .logError (stripAnsi err), .logInfo "--- end ---",
         tlog,
         .dbUpdate [("status", .vStr tstat)] ((PyDict.get? run "id").getD .vNone),
         .logInfo ("No outputs found for run " ++
           pyStr ((PyDict.get? run "id").getD .vNone))])) := by
  have h1 : PyDict.get? (PyDict.set run "status" (.vStr "running")) "status" =
      some (.vStr "running") := PyDict.get?_set_self ..
  have hid1 : PyDict.get? (PyDict.set run "status" (.vStr "running")) "id" =
      PyDict.get? run "id" := PyDict.get?_set_ne _ _ _ _ (by decide)
  by_cases hrc : rc = 0
  · have h2 : PyDict.get?
        (PyDict.set (PyDict.set run "status" (.vStr "running")) "status" (.vStr "pr_created"))
        "status" = some (.vStr "pr_created") := PyDict.get?_set_self ..
    have hid2 : PyDict.get?
        (PyDict.set (PyDict.set run "status" (.vStr "running")) "status" (.vStr "pr_created"))
        "id" = PyDict.get? run "id" :=
      (PyDict.get?_set_ne _ _ _ _ (by decide)).trans hid1
    simp [run_patchflow, hok, hsp, ho, hrc,
      save_run_present _ _ _ _ hro (by decide) h1,
      save_run_present _ _ _ _ hro (by decide) h2, serializeField, hid1, hid2]
  · have h2 : PyDict.get?
        (PyDict.set (PyDict.set run "status" (.vStr "running")) "status" (.vStr "failed"))
        "status" = some (.vStr "failed") := PyDict.get?_set_self ..
    have hid2 : PyDict.get?
        (PyDict.set (PyDict.set run "status" (.vStr "running")) "status" (.vStr "failed"))
        "id" = PyDict.get? run "id" :=
      (PyDict.get?_set_ne _ _ _ _ (by decide)).trans hid1
    simp [run_patchflow, hok, hsp, ho, hrc,
      save_run_present _ _ _ _ hro (by decide) h1,
      save_run_present _ _ _ _ hro (by decide) h2, serializeField, hid1, hid2]

/-! ## Decimal representation is injective (for output-path collision freedom) -/

/-- A column named in no `SET` clause keeps its value across the update. -/
theorem applyUpdate_get?_notin (record : PyDict) (sets : List (String × PyVal))
    (k : String) (h : ∀ kv ∈ sets, kv.1 ≠ k) :
    PyDict.get? (applyUpdate record sets) k = PyDict.get? record k := by
  induction sets generalizing record with
  | nil => rfl
  | cons kv sets ih =>
    have hk := h kv (List.mem_cons_self kv sets)
    calc PyDict.get? (applyUpdate (PyDict.set record kv.1 kv.2) sets) k
        = PyDict.get? (PyDict.set record kv.1 kv.2) k :=
          ih _ (fun kv' h' => h kv' (List.mem_cons_of_mem _ h'))
      _ = PyDict.get? record k := PyDict.get?_set_ne _ _ _ _ (Ne.symm hk)

/-- Every pair built by `save_run`'s loop names a key of the requested
subset, and its value is the (serialized) current field value. -/
theorem update_pairs_mem (run : PyDict) (only : List String) (kv : String × PyVal)
    (h : kv ∈ update_pairs run only) :
    kv.1 ∈ only ∧ kv.2 = serializeField ((PyDict.get? run kv.1).getD .vNone) := by
  unfold update_pairs at h
  rcases List.mem_map.mp h with ⟨k, hk, rfl⟩
  exact ⟨(List.mem_filter.mp hk).1, rfl⟩

/-- `save_run` never launches a process. -/
theorem save_run_no_spawn (cfg : Config) (run : PyDict) (only : Option (List String)) :
    (save_run cfg run only).filter isSpawn = [] := by
  unfold save_run
  by_cases h : (update_pairs run (only.getD (PyDict.keys run))).isEmpty
  · simp [h]
  · by_cases hro : cfg.read_only <;> simp [h, hro, isSpawn]

/-- In dry-run mode `save_run` performs no store mutation. -/
theorem save_run_ro_no_dbWrite (cfg : Config) (run : PyDict) (only : Option (List String))
    (hro : cfg.read_only = true) :
    (save_run cfg run only).filter isDbWrite = [] := by
  unfold save_run
  by_cases h : (update_pairs run (only.getD (PyDict.keys run))).isEmpty
  · simp [h]
  · simp [h, hro, isDbWrite]

/-! ## Spawn events and read-only independence -/

/-- When the command builds and the process completes, the per-run trace
contains exactly one process launch, carrying that command (whatever the
persistence mode). -/
theorem run_patchflow_filter_spawn_completed (cfg : Config) (w : World) (run : PyDict)
    (cmd : List String) (rc : Int) (out err : String)
    (hok : buildCmd cfg run (output_path cfg w.now ((PyDict.get? run "id").getD .vNone)) =
      .ok cmd)
    (hsp : w.spawn = .completed rc out err) :
    (run_patchflow cfg w run).2.filter isSpawn = [.spawnProc cmd] := by
  cases ho : w.outputFile <;> by_cases hrc : rc = 0 <;>
    simp [run_patchflow, hok, hsp, ho, hrc, List.filter_append, save_run_no_spawn, isSpawn]

/-- The dry-run toggle changes no behavior other than persistence: the final
in-memory run record and the process launches are identical with the toggle
on or off. -/
theorem run_patchflow_ro_indep (cfg : Config) (b : Bool) (w : World) (run : PyDict) :
    (run_patchflow { cfg with read_only := b } w run).1 = (run_patchflow cfg w run).1 ∧
    (run_patchflow { cfg with read_only := b } w run).2.filter isSpawn =
      (run_patchflow cfg w run).2.filter isSpawn := by
  cases hcmd : buildCmd cfg run (output_path cfg w.now ((PyDict.get? run "id").getD .vNone)) with
  | error msg =>
    have hcmd' : buildCmd { cfg with read_only := b } run
        (output_path { cfg with read_only := b } w.now ((PyDict.get? run "id").getD .vNone)) =
        .error msg := hcmd
    constructor <;>
      simp [run_patchflow, hcmd, hcmd', List.filter_append, save_run_no_spawn, isSpawn]
  | ok cmd =>
    have hcmd' : buildCmd { cfg with read_only := b } run
        (output_path { cfg with read_only := b } w.now ((PyDict.get? run "id").getD .vNone)) =
        .ok cmd := hcmd
    cases hsp : w.spawn with
    | launchError msg =>
      constructor <;>
        simp [run_patchflow, hcmd, hcmd', hsp, List.filter_append, save_run_no_spawn, isSpawn]
    | captureError msg =>
      constructor <;>
        simp [run_patchflow, hcmd, hcmd', hsp, List.filter_append, save_run_no_spawn, isSpawn]
    | completed rc out err =>
      cases ho : w.outputFile <;> by_cases hrc : rc = 0 <;> constructor <;>
        simp [run_patchflow, hcmd, hcmd', hsp, ho, hrc, List.filter_append,
          save_run_no_spawn, isSpawn]

/-! ## Batch dispatch lemmas -/

/-- Claim C1 counterexample.  The claim states that no fetched run is ever
observed skipping the `running` state, *including* runs whose invocation
raises an exception before the process starts.  A fetched row whose joined
flow `graph` is empty (as a `LEFT JOIN` miss or empty jsonb produces) raises
`KeyError` at `run["patchflow"]["graph"]["name"]` (line 123) before
`status = running` is ever written: the cycle's single run records the
persisted status sequence `[failed]`, reaching a terminal status without
ever being observed as `running`. -/
theorem c1_counterexample :
    (check_and_run_pending cfgA ⟨.ok [rowBad], [wOk]⟩).runResults.map
        (fun pr => statusWrites pr.2) = [[.vStr "failed"]] := by
  decide

/-- Claim C1 (amended).  For every run fetched in a dispatch cycle on which
the invocation command is successfully built, the persisted status sequence
is exactly `running` followed by exactly one terminal status
(`pr_created` or `failed`); a run whose command construction raises an
exception (before the subprocess coroutine is awaited) skips `running` and
goes directly from `pending` to `failed`.  The last conjunct shows every
run result of a cycle arises as `run_patchflow` on one fetched row. -/
theorem c1_status_transition_path (cfg : Config) (w : World) (run : PyDict)
    (hro : cfg.read_only = false) :
    (∀ cmd, buildCmd cfg run (output_path cfg w.now ((PyDict.get? run "id").getD .vNone)) =
        .ok cmd →
      ∃ t, (t = "pr_created" ∨ t = "failed") ∧
        statusWrites (run_patchflow cfg w run).2 = [.vStr "running", .vStr t]) ∧
    (∀ msg, buildCmd cfg run (output_path cfg w.now ((PyDict.get? run "id").getD .vNone)) =
        .error msg →
      statusWrites (run_patchflow cfg w run).2 = [.vStr "failed"]) ∧
    (∀ data worlds pr,
      pr ∈ (check_and_run_pending cfg ⟨.ok data, worlds⟩).runResults →
      ∃ row w', row ∈ data ∧ w' ∈ worlds ∧ pr = run_patchflow cfg w' (rowToRun row)) := by
  refine ⟨?_, ?_, ?_⟩
  · intro cmd hok
    cases hsp : w.spawn with
    | launchError msg =>
      exact ⟨"failed", Or.inr rfl, by
        rw [run_patchflow_launchErr cfg w run cmd msg hro hok hsp]
        simp [statusWrites]⟩
    | captureError msg =>
      exact ⟨"failed", Or.inr rfl, by
        rw [run_patchflow_captureErr cfg w run cmd msg hro hok hsp]
        simp [statusWrites]⟩
    | completed rc out err =>
      by_cases hrc : rc = 0
      · refine ⟨"pr_created", Or.inl rfl, ?_⟩
        cases ho : w.outputFile with
        | none =>
          rw [run_patchflow_completed_none cfg w run cmd rc out err hro hok hsp ho]
          simp [statusWrites, hrc]
        | some v =>
          rw [run_patchflow_completed_some cfg w run cmd rc out err v hro hok hsp ho]
          simp [statusWrites, hrc]
      · refine ⟨"failed", Or.inr rfl, ?_⟩
        cases ho : w.outputFile with
        | none =>
          rw [run_patchflow_completed_none cfg w run cmd rc out err hro hok hsp ho]
          simp [statusWrites, hrc]
        | some v =>
          rw [run_patchflow_completed_some cfg w run cmd rc out err v hro hok hsp ho]
          simp [statusWrites, hrc]
  · intro msg he
    rw [run_patchflow_buildErr cfg w run msg hro he]
    simp [statusWrites]
  · intro data worlds pr hpr
    by_cases hd : data.length = 0
    · simp [check_and_run_pending, hd] at hpr
    · simp only [check_and_run_pending, hd, if_false] at hpr
      rcases List.mem_map.mp hpr with ⟨q, hq, rfl⟩
      obtain ⟨hq1, hq2⟩ := List.of_mem_zip hq
      rcases List.mem_map.mp hq1 with ⟨row, hrow, hq1eq⟩
      exact ⟨row, q.2, hrow, hq2, by rw [hq1eq]⟩

/-- Claim C1 witness.  A well-formed run in a successful world follows
`running` then `pr_created`. -/
theorem c1_witness :
    ∃ t, (t = "pr_created" ∨ t = "failed") ∧
      statusWrites (run_patchflow cfgA wOk runA).2 = [.vStr "running", .vStr t] :=
  (c1_status_transition_path cfgA wOk runA rfl).1 _ rfl

/-- Claim C2.  For every run executed by the process runner: a non-zero exit
code yields final status `failed`; a zero exit code yields `pr_created`; an
exception at launch or while capturing output yields `failed` with an error
log line, and (last conjunct) every run result of a cycle is a total
function of its own row and world only, so one run's failure never aborts
its siblings. -/
theorem c2_outcome_mapping (cfg : Config) (w : World) (run : PyDict) (cmd : List String)
    (hro : cfg.read_only = false)
    (hok : buildCmd cfg run (output_path cfg w.now ((PyDict.get? run "id").getD .vNone)) =
      .ok cmd) :
    (∀ rc out err, w.spawn = .completed rc out err → rc ≠ 0 →
        PyDict.get? (run_patchflow cfg w run).1 "status" = some (.vStr "failed")) ∧
    (∀ out err, w.spawn = .completed 0 out err →
        PyDict.get? (run_patchflow cfg w run).1 "status" = some (.vStr "pr_created")) ∧
    (∀ msg, w.spawn = .launchError msg ∨ w.spawn = .captureError msg →
        PyDict.get? (run_patchflow cfg w run).1 "status" = some (.vStr "failed") ∧
        ∃ e, Event.logError e ∈ (run_patchflow cfg w run).2) ∧
    (∀ (data : List PyDict) (worlds : List World),
        (check_and_run_pending cfg ⟨.ok data, worlds⟩).runResults =
          ((data.map rowToRun).zip worlds).map (fun p => run_patchflow cfg p.2 p.1)) := by
  refine ⟨?_, ?_, ?_, ?_⟩
  · intro rc out err hsp hrc
    cases ho : w.outputFile with
    | none =>
      rw [run_patchflow_completed_none cfg w run cmd rc out err hro hok hsp ho]
      simp only [hrc, if_true, ite_not, if_neg hrc]
      exact PyDict.get?_set_self ..
    | some v =>
      rw [run_patchflow_completed_some cfg w run cmd rc out err v hro hok hsp ho]
      simp only [hrc, if_true, ite_not, if_neg hrc]
      rw [PyDict.get?_set_ne _ _ _ _ (by decide)]
      exact PyDict.get?_set_self ..
  · intro out err hsp
    cases ho : w.outputFile with
    | none =>
      rw [run_patchflow_completed_none cfg w run cmd 0 out err hro hok hsp ho]
      simp only [ne_eq, not_true_eq_false, if_false, reduceIte]
      exact PyDict.get?_set_self ..
    | some v =>
      rw [run_patchflow_completed_some cfg w run cmd 0 out err v hro hok hsp ho]
      simp only [ne_eq, not_true_eq_false, if_false, reduceIte]
      rw [PyDict.get?_set_ne _ _ _ _ (by decide)]
      exact PyDict.get?_set_self ..
  · intro msg hsp
    rcases hsp with hsp | hsp
    · rw [run_patchflow_launchErr cfg w run cmd msg hro hok hsp]
      exact ⟨PyDict.get?_set_self ..,
        "Error running patchflow for run " ++ pyStr ((PyDict.get? run "id").getD .vNone) ++
          ": " ++ msg, by simp⟩
    · rw [run_patchflow_captureErr cfg w run cmd msg hro hok hsp]
      exact ⟨PyDict.get?_set_self ..,
        "Error running patchflow for run " ++ pyStr ((PyDict.get? run "id").getD .vNone) ++
          ": " ++ msg, by simp⟩
  · intro data worlds
    by_cases hd : data.length = 0
    · rw [List.length_eq_zero] at hd
      subst hd
      simp [check_and_run_pending]
    · simp [check_and_run_pending, hd]

/-- Claim C2 witness.  A run whose process exits 1 ends `failed`. -/
theorem c2_witness :
    PyDict.get? (run_patchflow cfgA wFail runA).1 "status" = some (.vStr "failed") :=
  (c2_outcome_mapping cfgA wFail runA _ rfl rfl).1 1 "" "boom" rfl (by decide)

/-- Claim C3 counterexample.  The claim states that on *every* terminal path
— including the exception path — an attempt is made to load and persist the
output artifact.  On the exception path (here: launch failure) the code
records `failed` and returns from the `except` handler (line 167) without
ever touching the output file: no `outputs` write occurs and not even the
`"No outputs found"` informational line is logged, although the artifact
file was present and parseable. -/
theorem c3_counterexample :
    statusWrites (run_patchflow cfgA wLaunch runA).2 = [.vStr "running", .vStr "failed"] ∧
    outputsWrites (run_patchflow cfgA wLaunch runA).2 = [] ∧
    Event.logInfo "No outputs found for run 7" ∉ (run_patchflow cfgA wLaunch runA).2 ∧
    wLaunch.outputFile = some (.vDict [("result", .vStr "ok")]) := by
  decide

/-- Claim C3 (amended).  On the two exit-code terminal paths (the process ran
to completion), once the terminal status is recorded an attempt is made to
load the artifact and persist it as `outputs`: if the file parses, `outputs`
is set and persisted without altering the terminal status; if it is absent
or unparseable, `outputs` is left unchanged, the status is not altered, no
error is raised, and an informational line is logged.  On the exception
path no load attempt is made (see the counterexample). -/
theorem c3_outputs_after_terminal (cfg : Config) (w : World) (run : PyDict)
    (cmd : List String) (rc : Int) (out err : String)
    (hro : cfg.read_only = false)
    (hok : buildCmd cfg run (output_path cfg w.now ((PyDict.get? run "id").getD .vNone)) =
      .ok cmd)
    (hsp : w.spawn = .completed rc out err) :
    (∀ v, w.outputFile = some v →
      outputsWrites (run_patchflow cfg w run).2 = [serializeField v] ∧
      PyDict.get? (run_patchflow cfg w run).1 "outputs" = some v ∧
      PyDict.get? (run_patchflow cfg w run).1 "status" =
        some (.vStr (if rc = 0 then "pr_created" else "failed"))) ∧
    (w.outputFile = none →
      outputsWrites (run_patchflow cfg w run).2 = [] ∧
      PyDict.get? (run_patchflow cfg w run).1 "outputs" = PyDict.get? run "outputs" ∧
      PyDict.get? (run_patchflow cfg w run).1 "status" =
        some (.vStr (if rc = 0 then "pr_created" else "failed")) ∧
      Event.logInfo ("No outputs found for run " ++ pyStr ((PyDict.get? run "id").getD .vNone))
        ∈ (run_patchflow cfg w run).2) := by
  constructor
  · intro v ho
    rw [run_patchflow_completed_some cfg w run cmd rc out err v hro hok hsp ho]
    by_cases hrc : rc = 0 <;>
      [simp only [hrc, ne_eq, not_true_eq_false, if_false, reduceIte];
       simp only [ne_eq, hrc, not_false_eq_true, if_true, if_neg hrc]] <;>
      refine ⟨by simp [outputsWrites], PyDict.get?_set_self .., ?_⟩ <;>
      · rw [PyDict.get?_set_ne _ _ _ _ (by decide)]
        exact PyDict.get?_set_self ..
  · intro ho
    rw [run_patchflow_completed_none cfg w run cmd rc out err hro hok hsp ho]
    by_cases hrc : rc = 0 <;>
      [simp only [hrc, ne_eq, not_true_eq_false, if_false, reduceIte];
       simp only [ne_eq, hrc, not_false_eq_true, if_true, if_neg hrc]] <;>
      refine ⟨by simp [outputsWrites], ?_, PyDict.get?_set_self .., by simp⟩ <;>
      · rw [PyDict.get?_set_ne _ _ _ _ (by decide), PyDict.get?_set_ne _ _ _ _ (by decide)]

/-- Claim C3 witness.  A run that exits 1 with a parseable artifact persists
the artifact as `outputs` and keeps the recorded `failed` status. -/
theorem c3_witness :
    outputsWrites (run_patchflow cfgA wFail runA).2 =
      [serializeField (.vDict [("error", .vStr "bad")])] ∧
    PyDict.get? (run_patchflow cfgA wFail runA).1 "outputs" =
      some (.vDict [("error", .vStr "bad")]) ∧
    PyDict.get? (run_patchflow cfgA wFail runA).1 "status" =
      some (.vStr (if (1 : Int) = 0 then "pr_created" else "failed")) :=
  (c3_outputs_after_terminal cfgA wFail runA _ 1 "" "boom" rfl rfl rfl).1
    (.vDict [("error", .vStr "bad")]) rfl

/-- Claim C4.  The partial-persist operation only ever writes the named
fields: every `SET` pair names a key of the requested subset and carries the
run's current value for it, serialized through `json.dumps` when it is a
mapping; applying the update to a stored row leaves every column outside
the subset — in particular `inputs` and `outputs` when only `status` is
persisted — unchanged; and in normal mode `save_run` issues either nothing
or exactly that one partial update. -/
theorem c4_field_subset_frame (run record : PyDict) (only : List String) :
    (∀ kv ∈ update_pairs run only, kv.1 ∈ only) ∧
    (∀ k, k ∉ only →
      PyDict.get? (applyUpdate record (update_pairs run only)) k = PyDict.get? record k) ∧
    (∀ kv ∈ update_pairs run only, ∀ d, PyDict.get? run kv.1 = some (.vDict d) →
      kv.2 = .vStr (jsonDumpsV (.vDict d))) ∧
    (∀ cfg : Config, cfg.read_only = false →
      save_run cfg run (some only) = [] ∨
      save_run cfg run (some only) =
        [.dbUpdate (update_pairs run only) ((PyDict.get? run "id").getD .vNone)]) ∧
    (PyDict.get? (applyUpdate record (update_pairs run ["status"])) "inputs" =
      PyDict.get? record "inputs") ∧
    (PyDict.get? (applyUpdate record (update_pairs run ["status"])) "outputs" =
      PyDict.get? record "outputs") := by
  have frame : ∀ (only' : List String) (k : String), k ∉ only' →
      PyDict.get? (applyUpdate record (update_pairs run only')) k = PyDict.get? record k := by
    intro only' k hk
    refine applyUpdate_get?_notin record _ k (fun kv hkv heq => ?_)
    exact hk (heq ▸ (update_pairs_mem run only' kv hkv).1)
  refine ⟨fun kv h => (update_pairs_mem run only kv h).1, frame only, ?_, ?_, ?_, ?_⟩
  · intro kv h d hv
    rw [(update_pairs_mem run only kv h).2, hv]
    rfl
  · intro cfg hro
    unfold save_run
    by_cases hemp : (update_pairs run only).isEmpty
    · left; simp [hemp]
    · right; simp [hemp, hro]
  · exact frame ["status"] "inputs" (by decide)
  · exact frame ["status"] "outputs" (by decide)

/-- Claim C4 witness.  Persisting only `status` leaves the stored `inputs`
untouched. -/
theorem c4_witness :
    PyDict.get? (applyUpdate rowA (update_pairs runA ["status"])) "inputs" =
      PyDict.get? rowA "inputs" :=
  (c4_field_subset_frame runA rowA ["status"]).2.1 "inputs" (by decide)

/-- Claim C5.  With the dry-run toggle on, `save_run` performs zero store
mutations and, whenever there is anything to update, emits exactly one log
line carrying the intended field names and values; and the toggle affects
nothing but persistence: the final run record and the process launches of
any `run_patchflow` call are identical with the toggle on or off. -/
theorem c5_dry_run (cfg : Config) (run : PyDict) (only : Option (List String))
    (hro : cfg.read_only = true) :
    ((save_run cfg run only).filter isDbWrite = []) ∧
    ((update_pairs run (only.getD (PyDict.keys run))).isEmpty = false →
      save_run cfg run only =
        [.logWouldUpdate ((PyDict.get? run "id").getD .vNone)
          ((update_pairs run (only.getD (PyDict.keys run))).map (fun kv => kv.1 ++ " = %s"))
          ((update_pairs run (only.getD (PyDict.keys run))).map (fun kv => kv.2) ++
            [(PyDict.get? run "id").getD .vNone])]) ∧
    (∀ (cfg' : Config) (b : Bool) (w : World) (run' : PyDict),
      (run_patchflow { cfg' with read_only := b } w run').1 =
        (run_patchflow cfg' w run').1 ∧
      (run_patchflow { cfg' with read_only := b } w run').2.filter isSpawn =
        (run_patchflow cfg' w run').2.filter isSpawn) := by
  refine ⟨save_run_ro_no_dbWrite cfg run only hro, ?_,
    fun cfg' b w run' => run_patchflow_ro_indep cfg' b w run'⟩
  intro hne
  unfold save_run
  simp [hne, hro]

/-- Claim C5 witness. -/
theorem c5_witness :
    (save_run cfgR runA (some ["status"])).filter isDbWrite = [] ∧
    save_run cfgR runA (some ["status"]) =
      [.logWouldUpdate (.vInt 7) ["status = %s"] [.vStr "pending", .vInt 7]] := by
  have h := c5_dry_run cfgR runA (some ["status"]) rfl
  exact ⟨h.1, by rw [h.2.1 (by decide)]; decide⟩

/-- Claim C6.  The invocation command is the configured executable path, the
flow's graph name, the fixed flags `--log debug`, `--output <path>`,
`--disable_telemetry`, `--plain`, then one `key=value` argument per entry of
`run.inputs`, in that order; and when the process completes, exactly that
command (at the run-specific output path) is what was launched. -/
theorem c6_command_construction (cfg : Config) (run : PyDict) (inp pf g : PyDict)
    (name : String)
    (h1 : PyDict.get? run "inputs" = some (.vDict inp))
    (h2 : PyDict.get? run "patchflow" = some (.vDict pf))
    (h3 : PyDict.get? pf "graph" = some (.vDict g))
    (h4 : PyDict.get? g "name" = some (.vStr name)) :
    (∀ outP, buildCmd cfg run outP =
      .ok ([cfg.patchwork_exec, name, "--log", "debug", "--output", outP,
            "--disable_telemetry", "--plain"] ++
           inp.map (fun kv => kv.1 ++ "=" ++ pyStr kv.2))) ∧
    (∀ (w : World) (rc : Int) (out err : String), w.spawn = .completed rc out err →
      Event.spawnProc ([cfg.patchwork_exec, name, "--log", "debug", "--output",
          output_path cfg w.now ((PyDict.get? run "id").getD .vNone),
          "--disable_telemetry", "--plain"] ++
        inp.map (fun kv => kv.1 ++ "=" ++ pyStr kv.2)) ∈ (run_patchflow cfg w run).2) := by
  have hcmd : ∀ outP, buildCmd cfg run outP =
      .ok ([cfg.patchwork_exec, name, "--log", "debug", "--output", outP,
            "--disable_telemetry", "--plain"] ++
           inp.map (fun kv => kv.1 ++ "=" ++ pyStr kv.2)) := by
    intro outP
    simp [buildCmd, h1, h2, h3, h4]
  refine ⟨hcmd, ?_⟩
  intro w rc out err hsp
  have hf := run_patchflow_filter_spawn_completed cfg w run _ rc out err
    (hcmd (output_path cfg w.now ((PyDict.get? run "id").getD .vNone))) hsp
  exact List.mem_of_mem_filter (hf ▸ List.mem_singleton_self _)

/-- Claim C6 witness.  The concrete command of sample run 7. -/
theorem c6_witness :
    buildCmd cfgA runA "/tmp/outputs/2026-10-12T09-00-00_run_7.json" =
      .ok ([cfgA.patchwork_exec, "flow-a", "--log", "debug", "--output",
            "/tmp/outputs/2026-10-12T09-00-00_run_7.json",
            "--disable_telemetry", "--plain"] ++
           [("k", PyVal.vStr "v"), ("n", PyVal.vInt 2)].map
             (fun kv => kv.1 ++ "=" ++ pyStr kv.2)) :=
  (c6_command_construction cfgA runA [("k", .vStr "v"), ("n", .vInt 2)]
      [("name", .vStr "flow-a"), ("graph", .vDict [("name", .vStr "flow-a"),
        ("steps", .vDict [])])]
      [("name", .vStr "flow-a"), ("steps", .vDict [])] "flow-a"
      rfl rfl rfl rfl).1 "/tmp/outputs/2026-10-12T09-00-00_run_7.json"

/-- Claim C8.  A cycle whose fetch returns zero pending runs logs the empty
result, dispatches nothing, and performs no store write and no process
launch. -/
theorem c8_empty_cycle (cfg : Config) (worlds : List World) :
    check_and_run_pending cfg ⟨.ok [], worlds⟩ =
      ⟨[.logInfo "No pending runs found"], []⟩ ∧
    (allEvents (check_and_run_pending cfg ⟨.ok [], worlds⟩)).filter isDbWrite = [] ∧
    (allEvents (check_and_run_pending cfg ⟨.ok [], worlds⟩)).filter isSpawn = [] := by
  refine ⟨rfl, ?_, ?_⟩ <;> rfl

/-- Claim C9.  If no key of the requested subset is a persistable field of
the run (each is absent or is `patchflow`), `save_run` returns with no
store write and no log line — in dry-run mode too, since the early return
(line 76) precedes the dry-run branch. -/
theorem c9_empty_subset_noop (cfg : Config) (run : PyDict) (only : List String)
    (h : ∀ k ∈ only, PyDict.hasKey run k = false ∨ k = "patchflow") :
    save_run cfg run (some only) = [] := by
  have hup : update_pairs run only = [] := by
    unfold update_pairs
    rw [List.filter_eq_nil_iff.mpr]
    · rfl
    · intro k hk
      rcases h k hk with h1 | h1 <;> simp [h1]
  unfold save_run
  simp [hup]

/-- Claim C9 witness.  Subset of one absent key and the `patchflow` key, in
dry-run mode: no event at all. -/
theorem c9_witness : save_run cfgR runA (some ["patchflow", "no_such_column"]) = [] :=
  c9_empty_subset_noop cfgR runA ["patchflow", "no_such_column"] (by decide)

/-- Claim C10.  A run whose process exits non-zero but leaves a parseable
artifact ends with `status = failed` *and* its `outputs` persisted: the
store sees exactly three separate updates — `running`, then the terminal
`failed`, then `outputs` — so the terminal-status write strictly precedes
the `outputs` write and the two are not atomic. -/
theorem c10_failed_with_outputs (cfg : Config) (w : World) (run : PyDict)
    (cmd : List String) (rc : Int) (out err : String) (v : PyVal)
    (hro : cfg.read_only = false)
    (hok : buildCmd cfg run (output_path cfg w.now ((PyDict.get? run "id").getD .vNone)) =
      .ok cmd)
    (hsp : w.spawn = .completed rc out err)
    (hrc : rc ≠ 0)
    (ho : w.outputFile = some v) :
    dbWrites (run_patchflow cfg w run).2 =
      [.dbUpdate [("status", .vStr "running")] ((PyDict.get? run "id").getD .vNone),
       .dbUpdate [("status", .vStr "failed")] ((PyDict.get? run "id").getD .vNone),
       .dbUpdate [("outputs", serializeField v)] ((PyDict.get? run "id").getD .vNone)] ∧
    PyDict.get? (run_patchflow cfg w run).1 "status" = some (.vStr "failed") ∧
    PyDict.get? (run_patchflow cfg w run).1 "outputs" = some v := by
  rw [run_patchflow_completed_some cfg w run cmd rc out err v hro hok hsp ho]
  simp only [hrc, if_true, ite_not, if_neg hrc]
  refine ⟨by simp [dbWrites, isDbWrite], ?_, PyDict.get?_set_self ..⟩
  rw [PyDict.get?_set_ne _ _ _ _ (by decide)]
  exact PyDict.get?_set_self ..

/-- Claim C10 witness. -/
theorem c10_witness :
    PyDict.get? (run_patchflow cfgA wFail runA).1 "status" = some (.vStr "failed") ∧
    PyDict.get? (run_patchflow cfgA wFail runA).1 "outputs" =
      some (.vDict [("error", .vStr "bad")]) :=
  ⟨(c10_failed_with_outputs cfgA wFail runA _ 1 "" "boom" (.vDict [("error", .vStr "bad")])
      rfl rfl rfl (by decide) rfl).2.1,
   (c10_failed_with_outputs cfgA wFail runA _ 1 "" "boom" (.vDict [("error", .vStr "bad")])
      rfl rfl rfl (by decide) rfl).2.2⟩

end Patchwork
